import Mathlib

/-!
Shallow embedding of the report-rendering core of the sniffr twitter bot:
`src/services/infoimage.py` (the functions `draw_progress_ring` and
`create_report_image`) and the text-summary renderer `create_report_text`
from `src/services/twitter.py`.

The PIL drawing surface is modelled as a list of drawing commands
(`DrawCmd`); the PIL text-metric calls (`draw.textbbox`) and Python's
`textwrap.wrap` are external library functions, so the renderer is
parameterized over them via the `Metrics` structure.  Font loading
(`ImageFont.truetype`, which can raise `IOError`) is parameterized by a
`loadOk : String → Nat → Bool` oracle.  Everything else — margins, colors,
section ordering, vertical-offset arithmetic, string formatting, the
wrap-width divisors, the unbound-name error in the measure-pass risk loop —
is translated directly from the source.
-/

namespace Sniffr

/-- RGB color triple, as written literally in the source. -/
abbrev Color := ℤ × ℤ × ℤ

/-- A font handle as obtained from PIL: a truetype font identified by file
name and size (`ImageFont.truetype(name, size)`), or the built-in default
font (`ImageFont.load_default()`). -/
inductive FontSpec where
  | truetype (name : String) (size : ℕ)
  | builtin
  deriving DecidableEq, Repr

/-- The four logical fonts set up at lines 33–43 of infoimage.py. -/
structure FontSet where
  title_font : FontSpec
  header_font : FontSpec
  normal_font : FontSpec
  small_font : FontSpec
  deriving DecidableEq, Repr

/-- The text-metric and text-wrapping environment.  `bbW f s` is
`bbox[2] - bbox[0]` and `bbH f s` is `bbox[3] - bbox[1]` of
`draw.textbbox((0, 0), s, font=f)`; `wrap s w` is `textwrap.wrap(s, width=w)`.
These are deterministic external library functions (PIL, textwrap); the
renderer is parameterized over them. -/
structure Metrics where
  bbW : FontSpec → String → ℕ
  bbH : FontSpec → String → ℕ
  wrap : String → ℕ → List String

/-- One risk finding as consumed by the renderers: the dict keys
`name`, `level`, `value`, `score` (defaults already resolved). -/
structure Risk where
  name : String
  level : String
  value : String
  score : ℤ
  deriving DecidableEq, Repr

/-- The report dict consumed by the renderers: `normalized_score` and the
ordered `risks` list. -/
structure Report where
  normalized_score : ℤ
  risks : List Risk
  deriving DecidableEq, Repr

/-- The one Python exception the embedded code can raise: the `NameError`
for the identifier `i` at line 107 of infoimage.py (the measure-pass risk
loop `for risk in risks:` never binds `i`, yet the loop body evaluates the
f-string `"{i+1}. {risk_name}"`). -/
inductive PyErr where
  | nameError (ident : String)
  deriving DecidableEq, Repr

/-- One PIL drawing command issued against the canvas. -/
inductive DrawCmd where
  | arc (bbox : ℤ × ℤ × ℤ × ℤ) (start : ℚ) (stop : ℚ) (fill : Color) (stroke : ℕ)
  | line (p : ℤ × ℤ) (q : ℤ × ℤ) (fill : Color)
  | rect (bbox : ℤ × ℤ × ℤ × ℤ) (outline : ℤ × ℤ × ℤ × ℤ) (stroke : ℕ)
  | text (pos : ℤ × ℤ) (str : String) (font : FontSpec) (fill : Color)
  | rounded (p : ℤ × ℤ) (q : ℤ × ℤ) (radius : ℕ) (fill : Color)
  deriving DecidableEq, Repr

/-! Constants from lines 27–59 of infoimage.py. -/

def width : ℕ := 1200
def min_height : ℕ := 800
def white : Color := (240, 240, 240)
def light_gray : Color := (180, 180, 180)
def yellow : Color := (255, 200, 0)
def red : Color := (255, 100, 100)
def green : Color := (100, 200, 150)
def blue : Color := (120, 180, 255)
def left_margin : ℕ := 50
def right_margin : ℕ := 50
def top_margin : ℕ := 40
def bottom_margin : ℕ := 40
def vertical_spacing : ℕ := 15
def content_width : ℕ := width - left_margin - right_margin
def circle_radius : ℕ := 60
def circle_height : ℕ := circle_radius * 2
def title_text : String := "Token Risk Report"
def disclaimer_text : String :=
  "This report is for informational purposes only. Do your own research."
def watermark_text : String := "Powered by Sniffr"

/-- Lines 8–21: `draw_progress_ring`.  A gray full-circle background arc,
then the foreground arc from `start_angle = 90` to
`end_angle = 90 - (score / 100 * 360)` in the given color. -/
def draw_progress_ring (center : ℤ × ℤ) (radius : ℤ) (thickness : ℕ)
    (score : ℚ) (color : Color) : List DrawCmd :=
  let start_angle : ℚ := 90
  let end_angle : ℚ := 90 - score / 100 * 360
  [ .arc (center.1 - radius, center.2 - radius, center.1 + radius, center.2 + radius)
      0 360 (100, 100, 100) thickness
  , .arc (center.1 - radius, center.2 - radius, center.1 + radius, center.2 + radius)
      start_angle end_angle color thickness ]

/-- Lines 33–43: the four `ImageFont.truetype` calls inside one `try:`; the
`except IOError:` handler assigns `ImageFont.load_default()` to all four
logical fonts, so a single failed load replaces every font. -/
def loadFonts (loadOk : String → ℕ → Bool) : FontSet :=
  if loadOk "DejaVuSans-Bold.ttf" 50 && loadOk "DejaVuSans-Bold.ttf" 36
      && loadOk "DejaVuSans.ttf" 28 && loadOk "DejaVuSans.ttf" 20 then
    { title_font := .truetype "DejaVuSans-Bold.ttf" 50
    , header_font := .truetype "DejaVuSans-Bold.ttf" 36
    , normal_font := .truetype "DejaVuSans.ttf" 28
    , small_font := .truetype "DejaVuSans.ttf" 20 }
  else
    { title_font := .builtin, header_font := .builtin
    , normal_font := .builtin, small_font := .builtin }

/-- Lines 71–75: the display form of the token address.  Python slicing
`token_address[:6]` is `String.take 6` and `token_address[-6:]` (for a
string of more than 20 characters) is `String.drop (length - 6)`. -/
def shortAddress (token_address : String) : String :=
  if token_address.length > 20 then
    token_address.take 6 ++ "..." ++ token_address.drop (token_address.length - 6)
  else token_address

/-- Line 90 (and line 143 of twitter.py): the risk-level label from the
normalized score. -/
def risk_level_label (score : ℤ) : String :=
  if score > 66 then "HIGH RISK" else if score > 33 then "MEDIUM RISK" else "LOW RISK"

/-- Line 165: the gauge/score color from the normalized score. -/
def score_color (score : ℤ) : Color :=
  if score > 66 then red else if score > 33 then yellow else green

/-- Line 185: per-finding severity color from the uppercased level. -/
def level_color (risk_level : String) : Color :=
  if risk_level = "DANGER" then red else if risk_level = "WARNING" then yellow else blue

/-- Lines 101–103 / 199–201: the `Level: ...` line, with the parenthetical
suffix only when `risk_value` is truthy (a non-empty string). -/
def riskText (risk : Risk) : String :=
  let t := "Level: " ++ risk.level.toUpper
  if risk.value ≠ "" then t ++ " (" ++ risk.value ++ ")" else t

/-- Lines 97–120, one iteration of the measure-pass risk loop.  The body
computes `risk_name`, `risk_level`, `risk_value` and `risk_text` without
fault, but then line 107 evaluates the f-string `"{i+1}. {risk_name}"`
(the argument of `textwrap.wrap`) — and the loop header `for risk in risks:`
never binds `i`, so Python raises `NameError: name 'i' is not defined`
before any wrapping or height accumulation happens. -/
def measureRiskBody (_m : Metrics) (_fonts : FontSet) (_risk : Risk) (_y : ℕ) :
    Except PyErr ℕ :=
  .error (.nameError "i")

/-- The measure-pass risk loop over the (at most 3) selected risks. -/
def measureRisksLoop (m : Metrics) (fonts : FontSet) :
    List Risk → ℕ → Except PyErr ℕ
  | [], y => .ok y
  | risk :: rest, y =>
    match measureRiskBody m fonts risk y with
    | .error e => .error e
    | .ok y' => measureRisksLoop m fonts rest y'

/-- Lines 125–127: accumulate `bbox[3] - bbox[1] + 5` per wrapped line. -/
def measureLines (m : Metrics) (font : FontSpec) (lines : List String) (y : ℕ) : ℕ :=
  lines.foldl (fun acc line => acc + m.bbH font line + 5) y

/-- Lines 61–129: the measure pass.  Walks title, address, timestamp,
gauge-plus-label, the risk loop, and the wrapped disclaimer, accumulating
`y_position`; returns `y_position + bottom_margin` (line 129), or the
`NameError` from the risk loop. -/
def measurePass (m : Metrics) (fonts : FontSet) (score : ℤ) (risks : List Risk)
    (token_address : String) (current_time : String) : Except PyErr ℕ :=
  let y := top_margin
  let y := y + m.bbH fonts.title_font title_text + vertical_spacing
  let address_text := "Address: " ++ shortAddress token_address
  let y := y + m.bbH fonts.normal_font address_text + vertical_spacing
  let y := y + m.bbH fonts.small_font ("Generated: " ++ current_time) + vertical_spacing
  let risk_label_height := m.bbH fonts.header_font (risk_level_label score)
  let y := y + max circle_height risk_label_height + vertical_spacing + 30
  match measureRisksLoop m fonts risks y with
  | .error e => .error e
  | .ok y =>
    let wrapped_disclaimer := m.wrap disclaimer_text (content_width / 10)
    let y := measureLines m fonts.small_font wrapped_disclaimer y
    .ok (y + bottom_margin)

/-- The numbered risk name `f"{i+1}. {risk_name}"`. -/
def numberedName (i : ℕ) (risk_name : String) : String :=
  toString (i + 1) ++ ". " ++ risk_name

/-- Lines 188–192 (draw pass): wrap the numbered name at
`int(content_width / 20)` characters with the normal font; if that yields
more than 2 lines, switch to the small font and re-wrap at
`int(content_width / 15)` characters. -/
def riskNamePlan (m : Metrics) (fonts : FontSet) (i : ℕ) (risk_name : String) :
    FontSpec × List String :=
  let wrapped_name := m.wrap (numberedName i risk_name) (content_width / 20)
  if wrapped_name.length > 2 then
    (fonts.small_font, m.wrap (numberedName i risk_name) (content_width / 15))
  else
    (fonts.normal_font, wrapped_name)

/-- Lines 193–196: draw each wrapped name line at `left_margin + 20` and
advance by its bounding-box height plus 5. -/
def drawNameLines (m : Metrics) (font : FontSpec) :
    List String → ℕ → List DrawCmd × ℕ
  | [], y => ([], y)
  | line :: rest, y =>
    let cmd := DrawCmd.text ((left_margin : ℤ) + 20, (y : ℤ)) line font white
    let (cmds, yEnd) := drawNameLines m font rest (y + m.bbH font line + 5)
    (cmd :: cmds, yEnd)

/-- Lines 180–212, one iteration of the draw-pass risk loop (here `i` IS
bound, by `enumerate(risks)`): name lines, level line, score bar. -/
def drawRiskRow (m : Metrics) (fonts : FontSet) (i : ℕ) (risk : Risk) (y : ℕ) :
    List DrawCmd × ℕ :=
  let lcolor := level_color risk.level.toUpper
  let (risk_name_font, wrapped_name) := riskNamePlan m fonts i risk.name
  let (nameCmds, y) := drawNameLines m risk_name_font wrapped_name y
  let risk_text := riskText risk
  let levelCmd := DrawCmd.text ((left_margin : ℤ) + 40, (y : ℤ)) risk_text fonts.normal_font lcolor
  let y2 := y + m.bbH fonts.normal_font risk_text + 5
  let bar_width : ℤ := min ((content_width : ℤ) - 100) (risk.score * 4)
  let barCmd := DrawCmd.rounded ((left_margin : ℤ) + 40, (y2 : ℤ) + 10)
      ((left_margin : ℤ) + 40 + bar_width, (y2 : ℤ) + 30) 5 lcolor
  (nameCmds ++ [levelCmd, barCmd], y2 + 40 + vertical_spacing)

/-- The draw-pass risk loop `for i, risk in enumerate(risks):`. -/
def drawRisksLoop (m : Metrics) (fonts : FontSet) :
    List (ℕ × Risk) → ℕ → List DrawCmd × ℕ
  | [], y => ([], y)
  | (i, risk) :: rest, y =>
    let (cmds, y') := drawRiskRow m fonts i risk y
    let (cmds', yEnd) := drawRisksLoop m fonts rest y'
    (cmds ++ cmds', yEnd)

/-- Python `int(...)` applied to a rational: truncation toward zero. -/
def pyInt (q : ℚ) : ℤ := if 0 ≤ q then ⌊q⌋ else -⌊-q⌋

/-- Lines 138–140: the per-scanline gradient color
`(int(30 + y/h*20), int(30 + y/h*40), int(40 + y/h*60))`. -/
def gradientColor (final_height y : ℕ) : Color :=
  ( pyInt (30 + (y : ℚ) / (final_height : ℚ) * 20)
  , pyInt (30 + (y : ℚ) / (final_height : ℚ) * 40)
  , pyInt (40 + (y : ℚ) / (final_height : ℚ) * 60) )

/-- Lines 137–141: one full-width 1px line per scanline `y` in
`range(final_height)`. -/
def gradientCmds (final_height : ℕ) : List DrawCmd :=
  (List.range final_height).map fun (y : ℕ) =>
    .line (0, (y : ℤ)) ((width : ℤ), (y : ℤ)) (gradientColor final_height y)

/-- Lines 218–222: each disclaimer line is right-aligned by its measured
width and drawn 25px below the previous one. -/
def drawDisclaimerLines (m : Metrics) (font : FontSpec) :
    List String → ℤ → List DrawCmd
  | [], _ => []
  | line :: rest, y =>
    DrawCmd.text ((width : ℤ) - right_margin - m.bbW font line, y) line font light_gray
      :: drawDisclaimerLines m font rest (y + 25)

/-- Result of the draw pass: the command trace, together with the value of
`y_position` after the draw-pass risk loop (line 212) — the running
vertical offset the draw pass has consumed for the flowed sections (the
disclaimer and watermark that follow are anchored to the bottom of the
canvas and do not use `y_position`). -/
structure DrawOut where
  cmds : List DrawCmd
  y_after_risks : ℕ
  deriving DecidableEq, Repr

/-- Lines 136–228: the draw pass against the final canvas.  Gradient,
border, title with shadow, address, right-aligned timestamp, progress ring
with centered score and risk-level label, the `Top Risks:` header, the
risk rows, the bottom-anchored disclaimer and the watermark. -/
def drawPass (m : Metrics) (fonts : FontSet) (score : ℤ) (risks : List Risk)
    (token_address : String) (current_time : String) (final_height : ℕ) : DrawOut :=
  let gradient := gradientCmds final_height
  let border := DrawCmd.rect (10, 10, (width : ℤ) - 10, (final_height : ℤ) - 10)
      (255, 255, 255, 50) 2
  let y := top_margin
  let titleShadow := DrawCmd.text ((left_margin : ℤ) + 2, (y : ℤ) + 2) title_text
      fonts.title_font (50, 50, 50)
  let titleMain := DrawCmd.text ((left_margin : ℤ), (y : ℤ)) title_text fonts.title_font white
  let y := y + m.bbH fonts.title_font title_text + vertical_spacing
  let address_text := "Address: " ++ shortAddress token_address
  let addressCmd := DrawCmd.text ((left_margin : ℤ), (y : ℤ)) address_text
      fonts.normal_font light_gray
  let y := y + m.bbH fonts.normal_font address_text + vertical_spacing
  let ts_text := "Generated: " ++ current_time
  let tsCmd := DrawCmd.text ((width : ℤ) - right_margin - m.bbW fonts.small_font ts_text, (y : ℤ))
      ts_text fonts.small_font light_gray
  let y := y + m.bbH fonts.small_font ts_text + vertical_spacing
  let sc := score_color score
  let circle_center : ℤ × ℤ := ((left_margin : ℤ) + circle_radius + 20, (y : ℤ) + circle_radius)
  let ringCmds := draw_progress_ring circle_center (circle_radius : ℤ) 10 (score : ℚ) sc
  let score_text := toString score
  let scoreCmd := DrawCmd.text
      (circle_center.1 - ((m.bbW fonts.header_font score_text / 2 : ℕ) : ℤ),
       circle_center.2 - ((m.bbH fonts.header_font score_text / 2 : ℕ) : ℤ))
      score_text fonts.header_font sc
  let risk_label_height := m.bbH fonts.header_font (risk_level_label score)
  let labelCmd := DrawCmd.text
      ((left_margin : ℤ) + circle_radius * 2 + 60,
       (y : ℤ) + circle_radius - ((risk_label_height / 2 : ℕ) : ℤ))
      (risk_level_label score) fonts.header_font sc
  let y := y + circle_height + vertical_spacing + 30
  let topRisksCmd := DrawCmd.text ((left_margin : ℤ), (y : ℤ)) "Top Risks:" fonts.header_font white
  let y := y + risk_label_height + vertical_spacing
  let (riskCmds, y) := drawRisksLoop m fonts risks.enum y
  let wrapped_disclaimer := m.wrap disclaimer_text (content_width / 10)
  let disclaimer_y : ℤ := (final_height : ℤ) - bottom_margin - wrapped_disclaimer.length * 25
  let disclaimerCmds := drawDisclaimerLines m fonts.small_font wrapped_disclaimer disclaimer_y
  let watermarkCmd := DrawCmd.text ((left_margin : ℤ), (final_height : ℤ) - bottom_margin - 20)
      watermark_text fonts.small_font light_gray
  { cmds := gradient ++ [border, titleShadow, titleMain, addressCmd, tsCmd] ++ ringCmds
      ++ [scoreCmd, labelCmd, topRisksCmd] ++ riskCmds ++ disclaimerCmds ++ [watermarkCmd]
  , y_after_risks := y }

/-- The value returned by a successful `create_report_image` call: the
rendered canvas (dimensions plus command trace) and the fixed path
`'created_image.png'` the image is saved to and returned as. -/
structure RenderResult where
  image_width : ℕ
  final_height : ℕ
  cmds : List DrawCmd
  y_after_risks : ℕ
  path : String
  deriving DecidableEq, Repr

/-- Lines 23–236: `create_report_image`.  Loads fonts (with the all-default
fallback), extracts `normalized_score` (line 87) and `risks[:3]` (line 96)
once, runs the measure pass, allocates the final canvas of height
`max(min_height, y_position)` (line 132), and runs the draw pass.  A
`NameError` from the measure-pass risk loop propagates out of the function
(the outer `except` re-raises), so no final canvas is ever allocated in
that case. -/
def create_report_image (m : Metrics) (loadOk : String → ℕ → Bool) (report_data : Report)
    (token_address : String) (current_time : String) : Except PyErr RenderResult :=
  let fonts := loadFonts loadOk
  let score := report_data.normalized_score
  let risks := report_data.risks.take 3
  match measurePass m fonts score risks token_address current_time with
  | .error e => .error e
  | .ok y_position =>
    let final_height := max min_height y_position
    let out := drawPass m fonts score risks token_address current_time final_height
    .ok { image_width := width, final_height := final_height, cmds := out.cmds
        , y_after_risks := out.y_after_risks, path := "created_image.png" }

/-- Line 137 of twitter.py: one numbered line of the text report,
`f"{idx+1}. {name}: {LEVEL}"`, with the parenthetical value when truthy,
terminated by a newline. -/
def riskLine (idx : ℕ) (risk : Risk) : String :=
  toString (idx + 1) ++ ". " ++ risk.name ++ ": " ++ risk.level.toUpper
    ++ (if risk.value ≠ "" then " (" ++ risk.value ++ ")" else "") ++ "\n"

/-- Lines 135–140 of twitter.py: the loop
`for idx, risk in enumerate(report["risks"][:3]):` rendered as a list of
lines (the loop concatenates them in order). -/
def riskTextLines (report : Report) : List String :=
  (report.risks.take 3).enum.map fun p => riskLine p.1 p.2

/-- Lines 134–149 of twitter.py: `create_report_text`.  Note the address is
always shortened to `first 6 + "..." + last 4` (there is no length guard
here, unlike the image renderer). -/
def create_report_text (report : Report) (token_address : String) : String :=
  let risk_text := String.join (riskTextLines report)
  let score := report.normalized_score
  let risk_level := risk_level_label score
  "Token: " ++ token_address.take 6 ++ "..."
    ++ token_address.drop (token_address.length - 4) ++ "\n"
    ++ "Risk Score: " ++ toString score ++ "/100 (" ++ risk_level ++ ")\n\n"
    ++ "Top Risks:\n" ++ risk_text

/-!
Concrete evaluation environments.  The renderer is parameterized over the
PIL text metrics and `textwrap.wrap`; these fixtures supply simple total
instances so the embedded code can be evaluated at specific inputs.
-/

/-- A basic metric environment: every character is 10px wide, a line is as
tall as its font size (11px for the built-in font), and nothing wraps. -/
def mTest : Metrics :=
  { bbW := fun _ s => s.length * 10
  , bbH := fun f _ => match f with | .truetype _ size => size | .builtin => 11
  , wrap := fun s _ => [s] }

/-- A metric environment whose wrap produces three lines at the normal-font
character budget (55 = `int(1100 / 20)`) and a single line at any other
budget — the shape that triggers the small-font re-wrap branch. -/
def mWrap3 : Metrics :=
  { bbW := fun _ s => s.length * 10
  , bbH := fun f _ => match f with | .truetype _ size => size | .builtin => 11
  , wrap := fun s n =>
      if n = 55 then [s.take 20, (s.drop 20).take 20, s.drop 40] else [s] }

/-- A font loader for which every truetype load succeeds. -/
def allFonts : String → ℕ → Bool := fun _ _ => true

def riskMint : Risk :=
  { name := "Mint Authority Enabled", level := "danger", value := "", score := 90 }

def riskHolder : Risk :=
  { name := "Top Holder Concentration", level := "warn", value := "41%", score := 55 }

def reportOne : Report := { normalized_score := 85, risks := [riskMint] }

def reportTwo : Report := { normalized_score := 85, risks := [riskMint, riskHolder] }

def reportEmpty : Report := { normalized_score := 85, risks := [] }

/-!  Supporting lemmas (not tied to a single claim). -/

/-- The draw pass, run with an empty risk list, consumes a vertical offset
that includes `circle_height + vertical_spacing + 30` for the gauge row and
`risk_label_height + vertical_spacing` for the `Top Risks:` header — whereas
the measure pass accounted `max circle_height risk_label_height +
vertical_spacing + 30` for the gauge row and measured no header at all, so
the draw pass always consumes strictly more than was measured for the same
sections. -/
theorem drawPass_y_after_risks_nil (m : Metrics) (fonts : FontSet) (score : ℤ)
    (a t : String) (final_height : ℕ) :
    (drawPass m fonts score [] a t final_height).y_after_risks
      = top_margin + m.bbH fonts.title_font title_text + vertical_spacing
        + m.bbH fonts.normal_font ("Address: " ++ shortAddress a) + vertical_spacing
        + m.bbH fonts.small_font ("Generated: " ++ t) + vertical_spacing
        + circle_height + vertical_spacing + 30
        + m.bbH fonts.header_font (risk_level_label score) + vertical_spacing := rfl

/-- Draw-pass height accumulation over wrapped name lines is the fold of
the chosen font's per-line bounding-box heights plus 5. -/
theorem drawNameLines_height (m : Metrics) (font : FontSpec) (lines : List String)
    (y : ℕ) :
    (drawNameLines m font lines y).2
      = lines.foldl (fun acc line => acc + m.bbH font line + 5) y := by
  induction lines generalizing y with
  | nil => rfl
  | cons line rest ih => simp [drawNameLines, ih]

/-- When the normal-font wrap of the numbered name exceeds 2 lines, the
draw pass switches to the small font and the wider character budget
`int(content_width / 15)`. -/
theorem riskNamePlan_overflow (m : Metrics) (fonts : FontSet) (i : ℕ)
    (risk_name : String)
    (h : (m.wrap (numberedName i risk_name) (content_width / 20)).length > 2) :
    riskNamePlan m fonts i risk_name
      = (fonts.small_font, m.wrap (numberedName i risk_name) (content_width / 15)) := by
  simp [riskNamePlan, h]

/-!  Claim theorems. -/

/-- C1: the claim that `create_report_image` completes its measure pass on
every valid report and that the two passes agree fails on the code: with
any non-empty `risks` list the measure-pass risk loop raises
`NameError: name 'i' is not defined` (line 107 reads the loop index that
`for risk in risks:` never binds), so no final canvas is allocated.  The
height half of the claim does hold on the runs that complete: with an empty
risk list the render succeeds and the final canvas height is
`max(800, measured)` — here 800. -/
theorem measure_pass_crash_eval :
    create_report_image mTest allFonts reportOne
        "So11111111111111111111111111111111111111112" "2025-01-01 00:00:00 UTC"
      = .error (.nameError "i")
  ∧ (create_report_image mTest allFonts reportEmpty
        "So11111111111111111111111111111111111111112" "2025-01-01 00:00:00 UTC").map
        (fun res => res.final_height) = .ok 800 :=
  ⟨rfl, rfl⟩

/-- C2: a rendered image is produced exactly when the risks list is empty;
for any non-empty risks list the measure-pass risk loop raises `NameError`
for the unbound loop index `i` before the final canvas is allocated (in the
embedding, the error is returned before `drawPass` is ever invoked). -/
theorem create_report_image_error_of_cons (m : Metrics) (loadOk : String → ℕ → Bool)
    (report_data : Report) (a t : String) (r : Risk) (rs : List Risk)
    (hr : report_data.risks = r :: rs) :
    create_report_image m loadOk report_data a t = .error (.nameError "i") := by
  unfold create_report_image
  rw [hr]
  rfl

theorem create_report_image_ok_of_nil (m : Metrics) (loadOk : String → ℕ → Bool)
    (report_data : Report) (a t : String) (h : report_data.risks = []) :
    ∃ res, create_report_image m loadOk report_data a t = .ok res := by
  unfold create_report_image
  rw [h]
  exact ⟨_, rfl⟩

theorem report_image_ok_iff_risks_empty (m : Metrics) (loadOk : String → ℕ → Bool)
    (report_data : Report) (token_address current_time : String) :
    ((∃ res, create_report_image m loadOk report_data token_address current_time = .ok res)
        ↔ report_data.risks = [])
  ∧ (report_data.risks ≠ [] →
      create_report_image m loadOk report_data token_address current_time
        = .error (.nameError "i")) := by
  refine ⟨⟨?_, fun h =>
      create_report_image_ok_of_nil m loadOk report_data token_address current_time h⟩,
      fun hne => ?_⟩
  · rintro ⟨res, hres⟩
    by_contra hne
    obtain ⟨r, rs, hr⟩ := List.exists_cons_of_ne_nil hne
    rw [create_report_image_error_of_cons m loadOk report_data token_address current_time
      r rs hr] at hres
    cases hres
  · obtain ⟨r, rs, hr⟩ := List.exists_cons_of_ne_nil hne
    exact create_report_image_error_of_cons m loadOk report_data token_address current_time
      r rs hr

/-- C2 witness: at a concrete two-risk report the renderer returns the
`NameError`, and at a concrete empty-risk report it returns an image. -/
theorem report_image_ok_iff_risks_empty_witness :
    create_report_image mTest allFonts reportTwo "Bonk9xyz" "2025-06-30 12:00:00 UTC"
      = .error (.nameError "i")
  ∧ ∃ res, create_report_image mTest allFonts reportEmpty "Bonk9xyz" "2025-06-30 12:00:00 UTC"
      = .ok res :=
  ⟨(report_image_ok_iff_risks_empty mTest allFonts reportTwo "Bonk9xyz"
      "2025-06-30 12:00:00 UTC").2 (by simp [reportTwo]),
   (report_image_ok_iff_risks_empty mTest allFonts reportEmpty "Bonk9xyz"
      "2025-06-30 12:00:00 UTC").1.mpr rfl⟩

/-- A risk name long enough that its numbered form wraps to three lines at
the normal-font character budget under `mWrap3`. -/
def longRiskName : String :=
  "Liquidity pool ownership concentrated in a single externally owned account"

/-- C3: the claim that BOTH passes re-wrap an overlong risk name at the
smaller font (and accumulate the smaller font's line heights) fails on the
code: the measure pass raises `NameError` for the unbound loop index `i`
while formatting the numbered name — before its first `textwrap.wrap`
call — so it never wraps and never accumulates any height for the name.
Evaluated at a report whose single risk name wraps to 3 lines at the
normal-font budget `int(content_width / 20) = 55`.  (The draw-pass half of
the logic, lines 188–196, does select the small font, the wider budget 73
and the small font's line heights — see `riskNamePlan_overflow` and
`drawNameLines_height` — but it is reachable only when the risks list is
empty, so it never runs for an actual risk row.) -/
theorem overlong_name_crash_eval :
    (mWrap3.wrap (numberedName 0 longRiskName) (content_width / 20)).length > 2
  ∧ create_report_image mWrap3 allFonts
      { normalized_score := 40
      , risks := [{ name := longRiskName, level := "warn", value := "", score := 50 }] }
      "addr123" "2025-02-02 10:00:00 UTC" = .error (.nameError "i") :=
  ⟨by decide, rfl⟩

/-- C4: the severity tier used for the risk label (line 90) and for the
gauge/score color (line 165) is a pure function of the normalized score:
strictly above 66 is high/red, strictly above 33 up to 66 is medium/yellow,
and everything else — including the boundary values 33 and 66, which fall
to the lower tier — is low/green. -/
theorem risk_tier_classification (score : ℤ) :
    (66 < score → risk_level_label score = "HIGH RISK" ∧ score_color score = red)
  ∧ (33 < score → score ≤ 66 →
      risk_level_label score = "MEDIUM RISK" ∧ score_color score = yellow)
  ∧ (score ≤ 33 → risk_level_label score = "LOW RISK" ∧ score_color score = green) := by
  refine ⟨fun h => ?_, fun h1 h2 => ?_, fun h => ?_⟩
  · simp [risk_level_label, score_color, h]
  · have h3 : ¬(66 < score) := by omega
    simp [risk_level_label, score_color, h1, h3]
  · have h3 : ¬(66 < score) := by omega
    have h4 : ¬(33 < score) := by omega
    simp [risk_level_label, score_color, h3, h4]

/-- C4 witness: tier boundaries evaluated at 67, 66, 34, 33 and 0. -/
theorem risk_tier_classification_witness :
    (risk_level_label 67 = "HIGH RISK" ∧ score_color 67 = red)
  ∧ (risk_level_label 66 = "MEDIUM RISK" ∧ score_color 66 = yellow)
  ∧ (risk_level_label 34 = "MEDIUM RISK" ∧ score_color 34 = yellow)
  ∧ (risk_level_label 33 = "LOW RISK" ∧ score_color 33 = green)
  ∧ (risk_level_label 0 = "LOW RISK" ∧ score_color 0 = green) :=
  ⟨(risk_tier_classification 67).1 (by norm_num),
   (risk_tier_classification 66).2.1 (by norm_num) (by norm_num),
   (risk_tier_classification 34).2.1 (by norm_num) (by norm_num),
   (risk_tier_classification 33).2.2 (by norm_num),
   (risk_tier_classification 0).2.2 (by norm_num)⟩

/-- C5: the foreground arc of `draw_progress_ring` runs from a start angle
of 90 to an end angle of exactly `90 - (score/100*360)`, so the clockwise
sweep `90 - end` is 0 degrees at score 0, 180 degrees at score 50, and 360
degrees at score 100. -/
theorem ring_gauge_sweep (center : ℤ × ℤ) (radius : ℤ) (thickness : ℕ)
    (score : ℤ) (color : Color) :
    (draw_progress_ring center radius thickness (score : ℚ) color).getLast?
      = some (.arc (center.1 - radius, center.2 - radius,
                    center.1 + radius, center.2 + radius)
          90 (90 - (score : ℚ) / 100 * 360) color thickness)
  ∧ (90 : ℚ) - (90 - (0 : ℚ) / 100 * 360) = 0
  ∧ (90 : ℚ) - (90 - (50 : ℚ) / 100 * 360) = 180
  ∧ (90 : ℚ) - (90 - (100 : ℚ) / 100 * 360) = 360 :=
  ⟨rfl, by norm_num, by norm_num, by norm_num⟩

/-- C10: rendering is deterministic — `create_report_image` is a pure
function of the metric environment, the font loader, the report, the token
address and the current time, so two calls whose inputs agree (the function
parameters extensionally) produce identical results, and nothing else (in
particular no state from a prior invocation) can influence the output. -/
theorem render_deterministic (m m' : Metrics) (lo lo' : String → ℕ → Bool)
    (r r' : Report) (a a' t t' : String)
    (hW : ∀ f s, m.bbW f s = m'.bbW f s)
    (hH : ∀ f s, m.bbH f s = m'.bbH f s)
    (hwrap : ∀ s n, m.wrap s n = m'.wrap s n)
    (hlo : ∀ f n, lo f n = lo' f n)
    (hr : r = r') (ha : a = a') (ht : t = t') :
    create_report_image m lo r a t = create_report_image m' lo' r' a' t' := by
  have hm : m = m' := by
    cases m
    cases m'
    simp only [Metrics.mk.injEq]
    exact ⟨funext fun f => funext fun s => hW f s,
           funext fun f => funext fun s => hH f s,
           funext fun s => funext fun n => hwrap s n⟩
  have hl : lo = lo' := funext fun f => funext fun n => hlo f n
  subst hm hl hr ha ht
  rfl

/-- C6: both renderers consume only the first 3 findings, in input order:
replacing the risks list by its first 3 elements leaves the image render
(including its error behavior) and the text summary unchanged — so
findings beyond the third never affect any output — the text rows are
exactly the enumerated first-3 findings in input order, and at most
`min 3 (length l) ≤ 3` rows are produced. -/
theorem only_first_three_risks (m : Metrics) (loadOk : String → ℕ → Bool) (r : Report)
    (a t : String) (l : List Risk) :
    create_report_image m loadOk { r with risks := l } a t
      = create_report_image m loadOk { r with risks := l.take 3 } a t
  ∧ create_report_text { r with risks := l } a
      = create_report_text { r with risks := l.take 3 } a
  ∧ riskTextLines { r with risks := l } = (l.take 3).enum.map (fun p => riskLine p.1 p.2)
  ∧ (riskTextLines { r with risks := l }).length = min 3 l.length := by
  obtain ⟨score, risks⟩ := r
  have htt : (l.take 3).take 3 = l.take 3 := by
    simp [List.take_take]
  refine ⟨?_, ?_, rfl, ?_⟩
  · unfold create_report_image
    simp only [htt]
  · unfold create_report_text riskTextLines
    simp only [htt]
  · simp [riskTextLines]

/-- C7: the image renderer shows an address of at most 20 characters
unmodified, and a longer one as its first 6 characters, three dots, then
its last 6 characters; the text-summary renderer always uses the distinct
rule first 6, three dots, then last 4 (its output decomposes that way for
every address string). -/
theorem address_truncation (a : String) (report : Report) :
    (a.length ≤ 20 → shortAddress a = a)
  ∧ (a.length > 20 →
      (shortAddress a).data
        = a.data.take 6 ++ ['.', '.', '.'] ++ a.data.drop (a.length - 6))
  ∧ (∃ rest, create_report_text report a
      = "Token: " ++ a.take 6 ++ "..." ++ a.drop (a.length - 4) ++ rest) := by
  refine ⟨fun h => ?_, fun h => ?_, ?_⟩
  · simp [shortAddress, Nat.not_lt.mpr h]
  · have hdots : ("..." : String).data = ['.', '.', '.'] := rfl
    simp [shortAddress, h, hdots]
  · refine ⟨"\nRisk Score: " ++ toString report.normalized_score ++ "/100 ("
      ++ risk_level_label report.normalized_score ++ ")\n\n" ++ "Top Risks:\n"
      ++ String.join (riskTextLines report), ?_⟩
    unfold create_report_text
    simp [String.append_assoc]

/-- C7 witness: a 35-character address is truncated to
`first6 ++ "..." ++ last6` by the image renderer, a 20-character address is
left unmodified, and the text renderer emits `first6 ++ "..." ++ last4`. -/
theorem address_truncation_witness :
    shortAddress "ABCDEFGHIJKLMNOPQRST" = "ABCDEFGHIJKLMNOPQRST"
  ∧ (shortAddress "ABCDEFGHIJKLMNOPQRSTUVWXYZabc123456").data
      = ("ABCDEFGHIJKLMNOPQRSTUVWXYZabc123456" : String).data.take 6 ++ ['.', '.', '.']
        ++ ("ABCDEFGHIJKLMNOPQRSTUVWXYZabc123456" : String).data.drop
            (("ABCDEFGHIJKLMNOPQRSTUVWXYZabc123456" : String).length - 6)
  ∧ ∃ rest, create_report_text reportEmpty "ABCDEFGHIJKLMNOPQRSTUVWXYZabc123456"
      = "Token: " ++ ("ABCDEFGHIJKLMNOPQRSTUVWXYZabc123456" : String).take 6 ++ "..."
        ++ ("ABCDEFGHIJKLMNOPQRSTUVWXYZabc123456" : String).drop
            (("ABCDEFGHIJKLMNOPQRSTUVWXYZabc123456" : String).length - 4) ++ rest :=
  ⟨(address_truncation "ABCDEFGHIJKLMNOPQRST" reportEmpty).1 (by decide),
   (address_truncation "ABCDEFGHIJKLMNOPQRSTUVWXYZabc123456" reportEmpty).2.1 (by decide),
   (address_truncation "ABCDEFGHIJKLMNOPQRSTUVWXYZabc123456" reportEmpty).2.2⟩

/-- Helper for C8: Python `int(c + y/h*a)` over the rationals equals the
natural-number division formula `c + a*y/h`. -/
theorem pyInt_add_div (c a h y : ℕ) :
    pyInt ((c : ℚ) + (y : ℚ) / (h : ℚ) * (a : ℚ)) = ((c + a * y / h : ℕ) : ℤ) := by
  have hq : (0 : ℚ) ≤ (c : ℚ) + (y : ℚ) / (h : ℚ) * (a : ℚ) := by positivity
  rw [pyInt, if_pos hq]
  have hcast : (c : ℚ) + (y : ℚ) / (h : ℚ) * (a : ℚ)
      = ((a * y : ℕ) : ℚ) / ((h : ℕ) : ℚ) + ((c : ℕ) : ℤ) := by
    push_cast
    ring
  rw [hcast, Int.floor_add_int]
  have hfl : ⌊((a * y : ℕ) : ℚ) / ((h : ℕ) : ℚ)⌋ = ((a * y / h : ℕ) : ℤ) := by
    rw [← Int.natCast_floor_eq_floor (by positivity), Nat.floor_div_eq_div]
  rw [hfl]
  push_cast
  ring

/-- C8: scanline `y` of the gradient background is a full-width 1-pixel
line whose color is exactly `(int(30 + y/h*20), int(30 + y/h*40),
int(40 + y/h*60))`, i.e. the integer-division ramp
`(30 + 20y/h, 30 + 40y/h, 40 + 60y/h)`, with no randomness. -/
theorem gradient_scanline_colors (h y : ℕ) (hy : y < h) :
    (gradientCmds h)[y]?
      = some (.line (0, (y : ℤ)) ((width : ℤ), (y : ℤ))
          (((30 + 20 * y / h : ℕ) : ℤ), ((30 + 40 * y / h : ℕ) : ℤ),
           ((40 + 60 * y / h : ℕ) : ℤ))) := by
  unfold gradientCmds
  rw [List.getElem?_map, List.getElem?_range hy]
  simp only [Option.map_some']
  unfold gradientColor
  rw [show ((30 : ℚ) + (y : ℚ) / (h : ℚ) * 20) = ((30 : ℕ) : ℚ) + (y : ℚ) / (h : ℚ) * ((20 : ℕ) : ℚ) by push_cast; ring,
      show ((30 : ℚ) + (y : ℚ) / (h : ℚ) * 40) = ((30 : ℕ) : ℚ) + (y : ℚ) / (h : ℚ) * ((40 : ℕ) : ℚ) by push_cast; ring,
      show ((40 : ℚ) + (y : ℚ) / (h : ℚ) * 60) = ((40 : ℕ) : ℚ) + (y : ℚ) / (h : ℚ) * ((60 : ℕ) : ℚ) by push_cast; ring,
      pyInt_add_div, pyInt_add_div, pyInt_add_div]

/-- C8 witness: the middle scanline of an 800-pixel canvas is the
full-width line with color `(40, 50, 70)`. -/
theorem gradient_scanline_colors_witness :
    (gradientCmds 800)[400]? = some (.line (0, 400) (1200, 400) (40, 50, 70)) := by
  have h := gradient_scanline_colors 800 400 (by norm_num)
  norm_num [width] at h
  exact h

/-- C9: if any of the four `ImageFont.truetype` loads fails, all four
logical fonts are replaced by the built-in default font and the render
continues exactly as in the all-default case — a font-load failure alone
is never surfaced to the caller as an error. -/
theorem font_fallback_total (m : Metrics) (loadOk : String → ℕ → Bool)
    (report_data : Report) (a t : String)
    (h : loadOk "DejaVuSans-Bold.ttf" 50 = false ∨ loadOk "DejaVuSans-Bold.ttf" 36 = false
       ∨ loadOk "DejaVuSans.ttf" 28 = false ∨ loadOk "DejaVuSans.ttf" 20 = false) :
    loadFonts loadOk
      = { title_font := .builtin, header_font := .builtin
        , normal_font := .builtin, small_font := .builtin }
  ∧ create_report_image m loadOk report_data a t
      = create_report_image m (fun _ _ => false) report_data a t := by
  have hl : loadFonts loadOk
      = { title_font := .builtin, header_font := .builtin
        , normal_font := .builtin, small_font := .builtin } := by
    unfold loadFonts
    rcases h with h | h | h | h <;> simp [h]
  refine ⟨hl, ?_⟩
  unfold create_report_image
  rw [hl]
  rfl

/-- C9 witness: a loader that succeeds only at size 50 (so the title font
itself would load) still falls back to the built-in font everywhere, and
renders identically to the all-failure loader. -/
theorem font_fallback_total_witness :
    loadFonts (fun _ size => size == 50)
      = { title_font := .builtin, header_font := .builtin
        , normal_font := .builtin, small_font := .builtin }
  ∧ create_report_image mTest (fun _ size => size == 50) reportEmpty "addr"
        "2025-01-01 00:00:00 UTC"
      = create_report_image mTest (fun _ _ => false) reportEmpty "addr"
        "2025-01-01 00:00:00 UTC" :=
  font_fallback_total mTest (fun _ size => size == 50) reportEmpty "addr"
    "2025-01-01 00:00:00 UTC" (Or.inr (Or.inl rfl))

/-- C10 witness: two textually separate calls with identical inputs agree. -/
theorem render_deterministic_witness :
    create_report_image mTest allFonts reportEmpty "addr" "2025-01-01 00:00:00 UTC"
      = create_report_image mTest allFonts reportEmpty "addr" "2025-01-01 00:00:00 UTC" :=
  render_deterministic mTest mTest allFonts allFonts reportEmpty reportEmpty
    "addr" "addr" "2025-01-01 00:00:00 UTC" "2025-01-01 00:00:00 UTC"
    (fun _ _ => rfl) (fun _ _ => rfl) (fun _ _ => rfl) (fun _ _ => rfl) rfl rfl rfl

end Sniffr
